import Mathlib

/-!
Verification of the NewsPortal subscription / notification / digest pipeline.

Shallow embedding of the Django application's domain logic:
  * `news/models.py` — `Author.get_news_count_today`, `Author.can_publish_news`,
    `Post.clean`, `Post.save`, `Post.send_notifications_to_subscribers`,
    `Post._send_single_notification`, `Subscription.needs_weekly_digest`,
    `ActivationToken.is_expired`, `ActivationToken.is_valid`;
  * `news/services/email_service.py` — `EmailService.send_weekly_digest`,
    `EmailService.send_immediate_article_notification`;
  * `news/tasks.py` — `send_immediate_notification_task`;
  * `news/views.py` — `subscribe_to_category`, `resend_activation_email`;
  * `news/signals.py` — the `post_save` / `m2m_changed` receivers and their
    use (or non-use) of `transaction.on_commit`.

Conventions: time is `Nat` seconds (`timedelta(days=7)` becomes
`7 * daySeconds`; Python's signed subtraction of datetimes agrees with
truncated `Nat` subtraction everywhere it is used, since both comparisons
`>` against a positive bound give the same answer). The mail transport is a
success oracle `mailerOk : Nat → Bool` indexed by the recipient user id; the
Python code wraps every `send_mail` in `try/except`, which the embedding
mirrors by recording a `SendAttempt` with a `delivered` flag instead of
propagating a failure.
-/

namespace NewsPortal

/-- Seconds per day; `timedelta(days=n)` is `n * daySeconds`. -/
def daySeconds : Nat := 86400

/-- `Post.POST_TYPES`: `NEWS = 'NW'`, `ARTICLE = 'AR'`. -/
inductive PostType
  | news
  | article
deriving DecidableEq, Repr

/-- `news.models.Post` (the fields the pipeline reads). `pk` is `none` for an
unsaved instance, mirroring Django's `self.pk is None` check in `clean`. -/
structure Post where
  pk : Option Nat
  authorId : Nat
  post_type : PostType
  categoryIds : List Nat
  created_at : Nat
  notifications_sent : Bool
deriving DecidableEq, Repr

/-- `django.contrib.auth.models.User` (id and email only; an empty string
models a falsy `user.email`). -/
structure User where
  id : Nat
  email : String
deriving DecidableEq, Repr

/-- `news.models.Subscription`: unique `(user, category)` pair with the
nullable `last_weekly_sent` digest cursor. -/
structure Subscription where
  id : Nat
  userId : Nat
  categoryId : Nat
  last_weekly_sent : Option Nat
deriving DecidableEq, Repr

/-- `news.models.Category` (id only; its subscribers are derived from the
`Subscription` through-table, as in the Django M2M). -/
structure Category where
  id : Nat
deriving DecidableEq, Repr

/-- `news.models.ActivationToken`. -/
structure ActivationToken where
  userId : Nat
  token : String
  created_at : Nat
  activated : Bool
deriving DecidableEq, Repr

/-- The content store: the persisted rows the pipeline touches. -/
structure Store where
  posts : List Post
  users : List User
  categories : List Category
  subscriptions : List Subscription
deriving DecidableEq, Repr

/-- `category.subscribers.all()`: users related through `Subscription`. -/
def Store.subscribersOf (store : Store) (catId : Nat) : List User :=
  store.users.filter (fun u =>
    store.subscriptions.any (fun s => s.userId == u.id && s.categoryId == catId))

/-- `Author.get_news_count_today` (`models.py:33-39`): count of this author's
posts with `post_type == NEWS` and `created_at >= today_start`, where
`today_start` is the start of the local day of `now` (passed in explicitly
here, since the embedding does not model calendar arithmetic). -/
def get_news_count_today (posts : List Post) (authorId todayStart : Nat) : Nat :=
  (posts.filter (fun p =>
    p.authorId == authorId && p.post_type == PostType.news
      && decide (todayStart ≤ p.created_at))).length

/-- `Author.can_publish_news` (`models.py:41-43`). -/
def can_publish_news (posts : List Post) (authorId todayStart : Nat) : Bool :=
  get_news_count_today posts authorId todayStart < 3

/-- Result of `Post.clean`: `ok`, or the `ValidationError` whose message
embeds the author's current daily NEWS count. -/
inductive CleanResult
  | ok
  | validationError (newsCountToday : Nat)
deriving DecidableEq, Repr

/-- `Post.clean` (`models.py:112-121`): only a NEWS post with `pk is None`
is checked against the daily limit. -/
def Post.clean (posts : List Post) (p : Post) (todayStart : Nat) : CleanResult :=
  if p.post_type == PostType.news && p.pk.isNone then
    if ! can_publish_news posts p.authorId todayStart then
      .validationError (get_news_count_today posts p.authorId todayStart)
    else .ok
  else .ok

/-- `Post.save` (`models.py:123-126`): runs `clean`, then persists — a new
row (with fresh pk `newPk`) for an unsaved instance, an update otherwise.
The error value is the reported daily NEWS count. -/
def Post.save (posts : List Post) (p : Post) (todayStart newPk : Nat) :
    Except Nat (List Post) :=
  match Post.clean posts p todayStart with
  | .validationError c => .error c
  | .ok =>
    match p.pk with
    | none => .ok (posts ++ [{ p with pk := some newPk }])
    | some _ => .ok (posts.map (fun q => if q.pk == p.pk then p else q))

end NewsPortal

namespace NewsPortal

/-- `ActivationToken.is_expired` (`models.py:239-241`):
`now > created_at + 7 days`. -/
def ActivationToken.is_expired (t : ActivationToken) (now : Nat) : Bool :=
  let expiration_days := 7
  decide (t.created_at + expiration_days * daySeconds < now)

/-- `ActivationToken.is_valid` (`models.py:243-244`). -/
def ActivationToken.is_valid (t : ActivationToken) (now : Nat) : Bool :=
  !t.activated && !t.is_expired now

/-- The activation URL built in `views.py:725,729` and `signals.py:40`. -/
def activationUrl (siteUrl tok : String) : String :=
  siteUrl ++ "/accounts/activate/" ++ tok ++ "/"

/-- The user-facing message chosen by `resend_activation_email`. -/
inductive ResendStatus
  | infoAlreadyActivated
  | successNewToken
  | successExistingToken
  | successCreatedToken
deriving DecidableEq, Repr

/-- Observable outcome of `resend_activation_email`: the message, the token
row afterwards, and the activation URLs emailed. -/
structure ResendOutcome where
  status : ResendStatus
  tokenAfter : Option ActivationToken
  emailedUrls : List String
deriving DecidableEq, Repr

/-- `resend_activation_email` (`views.py:712-739`). `freshToken` stands for
the row `ActivationToken.create_token` would create (random token string). -/
def resend_activation_email (tok : Option ActivationToken) (now : Nat)
    (freshToken : ActivationToken) (siteUrl : String) : ResendOutcome :=
  match tok with
  | some t =>
    if t.activated then
      ⟨.infoAlreadyActivated, some t, []⟩
    else if t.is_expired now then
      ⟨.successNewToken, some freshToken, [activationUrl siteUrl freshToken.token]⟩
    else
      ⟨.successExistingToken, some t, [activationUrl siteUrl t.token]⟩
  | none =>
    ⟨.successCreatedToken, some freshToken, [activationUrl siteUrl freshToken.token]⟩

/-- Outcome of `subscribe_to_category`. -/
inductive SubscribeResult
  | categoryNotFound
  | subscribed (subId : Nat)
  | alreadySubscribed (subId : Nat)
deriving DecidableEq, Repr

/-- `subscribe_to_category` (`views.py:66-90`): `get_object_or_404` on the
category, then `Subscription.objects.get_or_create(user, category)`; the
`created` flag selects the success vs. informational message. -/
def subscribe_to_category (store : Store) (userId catId newSubId : Nat) :
    SubscribeResult × Store :=
  if store.categories.any (fun c => c.id == catId) then
    match store.subscriptions.find? (fun s => s.userId == userId && s.categoryId == catId) with
    | some s => (.alreadySubscribed s.id, store)
    | none =>
      (.subscribed newSubId,
        { store with subscriptions :=
            store.subscriptions ++ [⟨newSubId, userId, catId, none⟩] })
  else (.categoryNotFound, store)

/-- The `unique_together` invariant of `Subscription.Meta` (`models.py:77-78`):
no two rows share a `(user, category)` pair. -/
def noDuplicatePair : List Subscription → Bool
  | [] => true
  | s :: rest =>
    (!rest.any (fun t => t.userId == s.userId && t.categoryId == s.categoryId))
      && noDuplicatePair rest

/-- One call of the mail transport: recipient, triggering category, and
whether `send_mail` succeeded (`delivered = mailerOk toUserId`). -/
structure SendAttempt where
  toUserId : Nat
  catId : Nat
  delivered : Bool
deriving DecidableEq, Repr

/-- `Post._send_single_notification` (`models.py:157-197`): renders and sends
one message; any transport exception is caught and logged inside the method,
so the attempt is recorded with its outcome and nothing propagates. -/
def Post.send_single_notification (mailerOk : Nat → Bool) (subscriberId catId : Nat) :
    SendAttempt :=
  ⟨subscriberId, catId, mailerOk subscriberId⟩

/-- `Post.send_notifications_to_subscribers` (`models.py:142-155`): early
return when `notifications_sent` is already true (no save); otherwise one
send per subscriber of each attached category, then persist
`notifications_sent = true`. -/
def Post.send_notifications_to_subscribers (store : Store) (p : Post)
    (mailerOk : Nat → Bool) : List SendAttempt × Store :=
  if p.notifications_sent then ([], store)
  else
    let attempts := p.categoryIds.flatMap (fun cid =>
      (store.subscribersOf cid).map (fun u =>
        Post.send_single_notification mailerOk u.id cid))
    let p2 := { p with notifications_sent := true }
    (attempts, { store with posts := store.posts.map (fun q => if q.pk == p.pk then p2 else q) })

/-- `EmailService.send_immediate_article_notification`
(`email_service.py:129-170`): returns early unless the post is an ARTICLE;
sends to each subscriber with a truthy email; never reads or writes
`notifications_sent`; transport exceptions are caught per recipient. -/
def send_immediate_article_notification (store : Store) (p : Post)
    (mailerOk : Nat → Bool) : List SendAttempt :=
  if p.post_type != PostType.article then []
  else p.categoryIds.flatMap (fun cid =>
    ((store.subscribersOf cid).filter (fun u => u.email != "")).map (fun u =>
      ⟨u.id, cid, mailerOk u.id⟩))

/-- `send_immediate_notification_task` (`tasks.py:23-41`): re-fetch the post
by id (`Post.DoesNotExist` re-raised as the task's terminal error), then
route NEWS posts to `send_notifications_to_subscribers` and everything else
to `send_immediate_article_notification`. -/
def send_immediate_notification_task (store : Store) (postId : Nat)
    (mailerOk : Nat → Bool) : Except Unit (List SendAttempt × Store) :=
  match store.posts.find? (fun p => p.pk == some postId) with
  | none => .error ()
  | some p =>
    if p.post_type == PostType.news then
      .ok (Post.send_notifications_to_subscribers store p mailerOk)
    else
      .ok (send_immediate_article_notification store p mailerOk, store)

/-- `Subscription.needs_weekly_digest` (`models.py:83-87`):
no cursor yet, or `now - last_weekly_sent > 7 days`. -/
def Subscription.needs_weekly_digest (s : Subscription) (now : Nat) : Bool :=
  match s.last_weekly_sent with
  | none => true
  | some t => decide (7 * daySeconds < now - t)

/-- The digest query in `email_service.py:81-85`: ARTICLE posts in the
subscription's category with `created_at >= week_ago`. -/
def weekly_new_posts (posts : List Post) (catId weekAgo : Nat) : List Post :=
  posts.filter (fun p =>
    p.categoryIds.contains catId && p.post_type == PostType.article
      && decide (weekAgo ≤ p.created_at))

/-- What one iteration of the `send_weekly_digest` loop did to one
subscription: the (possibly cursor-advanced) row, the increments to the
`sent`/`error` counters, and `attempt` — `none` when no digest send was
attempted, `some d` when `send_mail` ran with outcome `d`. -/
structure SubStep where
  sub : Subscription
  sentInc : Nat
  errInc : Nat
  attempt : Option Bool
deriving DecidableEq, Repr

/-- The body of the `for subscription in subscriptions` loop of
`EmailService.send_weekly_digest` (`email_service.py:74-121`): skip unless
`needs_weekly_digest`; inside the `try`, query the week's articles; if any
exist, `send_mail` (a raised transport error jumps to the `except`, counting
an error, leaving the cursor untouched); on success set
`last_weekly_sent = now` and count a sent digest. -/
def process_subscription (posts : List Post) (now : Nat) (mailerOk : Nat → Bool)
    (s : Subscription) : SubStep :=
  if s.needs_weekly_digest now then
    let new_posts := weekly_new_posts posts s.categoryId (now - 7 * daySeconds)
    if new_posts.isEmpty then ⟨s, 0, 0, none⟩
    else if mailerOk s.userId then
      ⟨{ s with last_weekly_sent := some now }, 1, 0, some true⟩
    else ⟨s, 0, 1, some false⟩
  else ⟨s, 0, 0, none⟩

/-- The dictionary returned by `send_weekly_digest`
(`email_service.py:123-127`). -/
structure DigestRunResult where
  sent : Nat
  errors : Nat
  total : Nat
deriving DecidableEq, Repr

/-- Accumulation of one loop iteration of `send_weekly_digest`: append the
updated subscription row and add the counter increments. -/
def digest_step (posts : List Post) (now : Nat) (mailerOk : Nat → Bool)
    (acc : List Subscription × Nat × Nat) (s : Subscription) :
    List Subscription × Nat × Nat :=
  let r := process_subscription posts now mailerOk s
  (acc.1 ++ [r.sub], acc.2.1 + r.sentInc, acc.2.2 + r.errInc)

/-- `EmailService.send_weekly_digest` (`email_service.py:63-127`): fold the
loop body over every subscription, accumulating the updated rows and the
two counters; return `{sent, errors, total = sent + errors}`. -/
def send_weekly_digest (store : Store) (now : Nat) (mailerOk : Nat → Bool) :
    DigestRunResult × Store :=
  let out := store.subscriptions.foldl (digest_step store.posts now mailerOk) ([], 0, 0)
  (⟨out.2.1, out.2.2, out.2.1 + out.2.2⟩, { store with subscriptions := out.1 })

/-- Observable events of one mutation's transaction, in order: submissions
of the notification job to the queue (`task.delay(post_id)`) and the commit
point of the surrounding transaction. -/
inductive QueueEvent
  | submitJob (postId : Nat)
  | commitTx
deriving DecidableEq, Repr

/-- The event trace of creating a post (`signals.py`): the `post_save`
receivers run inside the transaction — `handle_post_save` (lines 135-148)
registers a `transaction.on_commit` submission when the new post already has
categories, while `notify_subscribers_on_new_post` (lines 293-300) calls
`send_immediate_notification_task.delay(instance.id)` directly, before the
commit; `on_commit` callbacks run after the commit point. -/
def create_post_events (postId : Nat) (hasCategories : Bool) : List QueueEvent :=
  let duringTx := [QueueEvent.submitJob postId]
  let afterCommit := if hasCategories then [QueueEvent.submitJob postId] else []
  duringTx ++ [QueueEvent.commitTx] ++ afterCommit

/-- The event trace of attaching categories to a post
(`handle_post_categories_changed`, `signals.py:119-132`): the `post_add`
branch wraps the submission in `transaction.on_commit`, so it runs only
after the commit point. -/
def attach_categories_events (postId : Nat) : List QueueEvent :=
  [QueueEvent.commitTx, QueueEvent.submitJob postId]

/-- A trace submits jobs only after its transaction committed: no
`submitJob` occurs before the `commitTx` event. -/
def submits_only_after_commit : List QueueEvent → Bool
  | [] => true
  | .commitTx :: _ => true
  | .submitJob _ :: _ => false

end NewsPortal

namespace NewsPortal

/-- Fixture: a NEWS post by author 7 created today (day start taken as 0). -/
def exTodayNews (k : Nat) : Post :=
  { pk := some k, authorId := 7, post_type := .news, categoryIds := [1],
    created_at := 100, notifications_sent := false }

/-- Fixture: three NEWS posts by author 7 created today. -/
def exPosts3 : List Post := [exTodayNews 1, exTodayNews 2, exTodayNews 3]

/-- Fixture: a fourth, not yet persisted NEWS post by author 7. -/
def exNewNews : Post :=
  { pk := none, authorId := 7, post_type := .news, categoryIds := [1],
    created_at := 200, notifications_sent := false }

/-- Fixture: a persisted NEWS post in category 1, notifications not sent. -/
def exNewsRow : Post :=
  { pk := some 1, authorId := 7, post_type := .news, categoryIds := [1],
    created_at := 100, notifications_sent := false }

/-- Fixture: store with `exNewsRow`, one category, and one subscriber
(user 2) of category 1. -/
def exNewsStore : Store :=
  { posts := [exNewsRow],
    users := [⟨2, "u2-example"⟩],
    categories := [⟨1⟩],
    subscriptions := [⟨5, 2, 1, none⟩] }

/-- Fixture: `exNewsStore` after a dispatch run marked the post as sent. -/
def exNewsStoreSent : Store :=
  { exNewsStore with posts := [{ exNewsRow with notifications_sent := true }] }

/-- Fixture: store holding an ARTICLE post whose `notifications_sent` flag
is already true, with one subscriber of its category. -/
def exArticleStore : Store :=
  { posts := [{ pk := some 1, authorId := 7, post_type := .article,
                categoryIds := [1], created_at := 100, notifications_sent := true }],
    users := [⟨2, "u2-example"⟩],
    categories := [⟨1⟩],
    subscriptions := [⟨5, 2, 1, none⟩] }

/-- Fixture: a due subscription (no cursor yet) of user 2 to category 1. -/
def exDigestSub : Subscription := ⟨5, 2, 1, none⟩

/-- Fixture: store with one fresh ARTICLE in category 1 and the due
subscription `exDigestSub`. -/
def exDigestStore : Store :=
  { posts := [{ pk := some 1, authorId := 7, post_type := .article,
                categoryIds := [1], created_at := 90, notifications_sent := false }],
    users := [⟨2, "u2-example"⟩],
    categories := [⟨1⟩],
    subscriptions := [exDigestSub] }

end NewsPortal

namespace NewsPortal

/-- Claim C1: creating a NEWS post while the author already has 3 or more
NEWS posts since the start of the local day is rejected with a validation
error reporting the author's exact current daily NEWS count, and nothing is
persisted (`Post.save` returns the error instead of a new post list); with
fewer than 3 such posts creation succeeds; and a post whose type is not NEWS
is never rejected by this rule. -/
theorem C1_news_daily_rate_limit (posts : List Post) (p : Post)
    (todayStart newPk : Nat) (hpk : p.pk = none) :
    (p.post_type = PostType.news →
      3 ≤ get_news_count_today posts p.authorId todayStart →
      Post.save posts p todayStart newPk =
        .error (get_news_count_today posts p.authorId todayStart))
    ∧ (p.post_type = PostType.news →
      get_news_count_today posts p.authorId todayStart < 3 →
      Post.save posts p todayStart newPk = .ok (posts ++ [{ p with pk := some newPk }]))
    ∧ (p.post_type ≠ PostType.news →
      Post.save posts p todayStart newPk = .ok (posts ++ [{ p with pk := some newPk }])) := by
  refine ⟨?_, ?_, ?_⟩
  · intro ht hc
    have hlt : ¬ get_news_count_today posts p.authorId todayStart < 3 := by omega
    simp [Post.save, Post.clean, can_publish_news, hpk, ht, hlt]
  · intro ht hc
    simp [Post.save, Post.clean, can_publish_news, hpk, ht, hc]
  · intro ht
    cases hty : p.post_type
    · exact absurd hty ht
    · simp [Post.save, Post.clean, hpk, hty]

/-- Witness for C1 at a concrete state: author 7 already has exactly 3 NEWS
posts today, so the fourth attempt fails reporting the count 3. -/
theorem C1_news_daily_rate_limit_witness :
    exNewNews.pk = none
      ∧ Post.save exPosts3 exNewNews 0 4 = .error 3 := by
  refine ⟨by decide, ?_⟩
  have h :=
    (C1_news_daily_rate_limit exPosts3 exNewNews 0 4 (by decide)).1 (by decide) (by decide)
  simpa using h

/-- Claim C9: `Post.clean` applies the daily NEWS rate limit only to posts
being created for the first time: saving a post whose `pk` is set never
raises the validation error, whatever the post's type and however many NEWS
posts its author created today — the save always succeeds as an update. -/
theorem C9_rate_limit_only_on_create (posts : List Post) (p : Post)
    (todayStart newPk k : Nat) :
    Post.clean posts { p with pk := some k } todayStart = .ok
    ∧ Post.save posts { p with pk := some k } todayStart newPk =
        .ok (posts.map (fun q => if q.pk == some k then { p with pk := some k } else q)) := by
  constructor
  · simp [Post.clean]
  · simp [Post.save, Post.clean]

/-- Claim C7: `is_expired` is true exactly when `now` is strictly after
`created_at + 7 days` (false at or before that instant), and `is_valid` is
false whenever `activated` is true or the token is expired, true
otherwise. -/
theorem C7_token_expiry_and_validity (t : ActivationToken) (now : Nat) :
    (t.is_expired now = true ↔ t.created_at + 7 * daySeconds < now)
    ∧ (t.is_valid now = true ↔ (t.activated = false ∧ t.is_expired now = false)) := by
  constructor
  · simp [ActivationToken.is_expired]
  · simp [ActivationToken.is_valid, Bool.and_eq_true, Bool.not_eq_true']

end NewsPortal

namespace NewsPortal

/-- Claim C8: for an authenticated user's resend request — an already
activated token yields only an informational message, with no email and no
token change; an expired token is deleted and replaced by the fresh one
before the email is sent with the new token's URL; otherwise the email is
re-sent with the existing token's URL. -/
theorem C8_resend_activation_flow (t : ActivationToken) (now : Nat)
    (freshToken : ActivationToken) (siteUrl : String) :
    (t.activated = true →
      resend_activation_email (some t) now freshToken siteUrl =
        ⟨.infoAlreadyActivated, some t, []⟩)
    ∧ (t.activated = false → t.is_expired now = true →
      resend_activation_email (some t) now freshToken siteUrl =
        ⟨.successNewToken, some freshToken, [activationUrl siteUrl freshToken.token]⟩)
    ∧ (t.activated = false → t.is_expired now = false →
      resend_activation_email (some t) now freshToken siteUrl =
        ⟨.successExistingToken, some t, [activationUrl siteUrl t.token]⟩) := by
  refine ⟨?_, ?_, ?_⟩
  · intro h1
    simp [resend_activation_email, h1]
  · intro h1 h2
    simp [resend_activation_email, h1, h2]
  · intro h1 h2
    simp [resend_activation_email, h1, h2]

/-- Witness for C8: an expired, never-activated token (created at 0,
queried 8 days later) is replaced by the fresh token before the email. -/
theorem C8_resend_activation_flow_witness :
    (⟨3, "old", 0, false⟩ : ActivationToken).activated = false
    ∧ ActivationToken.is_expired ⟨3, "old", 0, false⟩ (8 * daySeconds) = true
    ∧ resend_activation_email (some ⟨3, "old", 0, false⟩) (8 * daySeconds)
        ⟨3, "new", 8 * daySeconds, false⟩ "https://site" =
      ⟨.successNewToken, some ⟨3, "new", 8 * daySeconds, false⟩,
        ["https://site/accounts/activate/new/"]⟩ := by
  refine ⟨by decide, by decide, ?_⟩
  exact (C8_resend_activation_flow ⟨3, "old", 0, false⟩ (8 * daySeconds)
    ⟨3, "new", 8 * daySeconds, false⟩ "https://site").2.1 (by decide) (by decide)

/-- Appending a subscription whose `(user, category)` pair occurs nowhere in
the list preserves the uniqueness invariant. -/
theorem noDuplicatePair_append (l : List Subscription) (s : Subscription)
    (hdup : noDuplicatePair l = true)
    (habs : ∀ t ∈ l, ¬(t.userId = s.userId ∧ t.categoryId = s.categoryId)) :
    noDuplicatePair (l ++ [s]) = true := by
  induction l with
  | nil => simp [noDuplicatePair]
  | cons a l ih =>
    simp only [noDuplicatePair, Bool.and_eq_true, Bool.not_eq_true'] at hdup
    obtain ⟨ha, hl⟩ := hdup
    simp only [List.cons_append, noDuplicatePair, Bool.and_eq_true, Bool.not_eq_true']
    refine ⟨?_, ih hl (fun t ht => habs t (List.mem_cons_of_mem a ht))⟩
    simp only [List.append_eq, List.any_append, Bool.or_eq_false_iff]
    refine ⟨ha, ?_⟩
    simp only [List.any_cons, List.any_nil, Bool.or_false]
    rw [Bool.eq_false_iff]
    intro hcontra
    simp only [Bool.and_eq_true, beq_iff_eq] at hcontra
    exact habs a (List.mem_cons_self a l) ⟨hcontra.1.symm, hcontra.2.symm⟩

/-- Claim C6: there is at most one Subscription per `(user, category)` pair —
`subscribe_to_category` preserves the uniqueness invariant — and a subscribe
request for an already subscribed pair returns the existing subscription
with the informational message, leaving the store unchanged. -/
theorem C6_subscription_uniqueness (store : Store) (userId catId newSubId : Nat)
    (hinv : noDuplicatePair store.subscriptions = true) :
    noDuplicatePair (subscribe_to_category store userId catId newSubId).2.subscriptions = true
    ∧ (∀ s, store.categories.any (fun c => c.id == catId) = true →
        store.subscriptions.find?
          (fun t => t.userId == userId && t.categoryId == catId) = some s →
        subscribe_to_category store userId catId newSubId =
          (.alreadySubscribed s.id, store)) := by
  constructor
  · unfold subscribe_to_category
    by_cases hcat : store.categories.any (fun c => c.id == catId) = true
    · rw [if_pos hcat]
      cases hfind : store.subscriptions.find?
          (fun t => t.userId == userId && t.categoryId == catId) with
      | some s => simpa using hinv
      | none =>
        simp only []
        refine noDuplicatePair_append _ _ hinv ?_
        intro t ht hmatch
        have hnone := List.find?_eq_none.mp hfind t ht
        simp only [Bool.and_eq_true, beq_iff_eq] at hnone
        exact hnone ⟨hmatch.1, hmatch.2⟩
    · rw [if_neg hcat]
      exact hinv
  · intro s hcat hfind
    unfold subscribe_to_category
    rw [if_pos hcat, hfind]

/-- Witness for C6: in a store where user 2 is already subscribed to
category 1 (row id 5), subscribing again returns that row unchanged. -/
theorem C6_subscription_uniqueness_witness :
    noDuplicatePair exNewsStore.subscriptions = true
    ∧ subscribe_to_category exNewsStore 2 1 9 =
        (.alreadySubscribed 5, exNewsStore) := by
  refine ⟨by decide, ?_⟩
  exact (C6_subscription_uniqueness exNewsStore 2 1 9 (by decide)).2
    ⟨5, 2, 1, none⟩ (by decide) (by decide)

end NewsPortal

namespace NewsPortal

/-- Replacing, by pk, the post that `find?` located yields a list where
`find?` locates the replacement (the replacement keeps the same pk). -/
theorem find_after_replace (l : List Post) (p p2 : Post) (postId : Nat)
    (hfind : l.find? (fun q => q.pk == some postId) = some p)
    (hpk2 : p2.pk = p.pk) :
    (l.map (fun q => if q.pk == p.pk then p2 else q)).find?
      (fun q => q.pk == some postId) = some p2 := by
  have hp : (p.pk == some postId) = true := by
    have h0 := List.find?_some hfind
    exact h0
  induction l with
  | nil => simp at hfind
  | cons a l ih =>
    by_cases ha : (a.pk == some postId) = true
    · rw [List.find?_cons_of_pos (p := fun q : Post => q.pk == some postId) _ ha] at hfind
      have hap : a = p := by injection hfind
      have hp2 : (p2.pk == some postId) = true := by
        rw [hpk2]; exact hp
      simp only [List.map_cons]
      have hhead : (if (a.pk == p.pk) = true then p2 else a) = p2 := by
        rw [hap]
        simp
      rw [hhead]
      exact List.find?_cons_of_pos _ hp2
    · rw [List.find?_cons_of_neg (p := fun q : Post => q.pk == some postId) _ ha] at hfind
      have hne : (a.pk == p.pk) = false := by
        rw [Bool.eq_false_iff]
        intro hcontra
        apply ha
        rw [beq_iff_eq] at hcontra ⊢
        rw [hcontra]
        rwa [beq_iff_eq] at hp
      simp only [List.map_cons]
      have hhead : (if (a.pk == p.pk) = true then p2 else a) = a := by
        rw [hne]
        simp
      rw [hhead]
      rw [List.find?_cons_of_neg (p := fun q : Post => q.pk == some postId) _ ha]
      exact ih hfind

/-- The dispatch task is a no-op success on any NEWS post whose
`notifications_sent` flag is already set. -/
theorem task_found_flag_true (store : Store) (postId : Nat) (p2 : Post)
    (mailerOk : Nat → Bool)
    (hfind : store.posts.find? (fun q => q.pk == some postId) = some p2)
    (hty : p2.post_type = PostType.news)
    (hflag : p2.notifications_sent = true) :
    send_immediate_notification_task store postId mailerOk = .ok ([], store) := by
  simp [send_immediate_notification_task, hfind, hty,
    Post.send_notifications_to_subscribers, hflag]

/-- Claim C2 (amended to NEWS posts, the ones the dispatch task routes
through `Post.send_notifications_to_subscribers`): when the post's
`notifications_sent` flag is already true the task returns successfully with
no send attempts and an unchanged store; and any successful run persists
`notifications_sent = true` for the post, so a second invocation on the
resulting store performs no sends. -/
theorem C2_news_dispatch_flag_idempotent (store : Store) (postId : Nat)
    (p : Post) (mailerOk : Nat → Bool)
    (hfind : store.posts.find? (fun q => q.pk == some postId) = some p)
    (hty : p.post_type = PostType.news) :
    (p.notifications_sent = true →
      send_immediate_notification_task store postId mailerOk = .ok ([], store))
    ∧ (∀ sends store2,
        send_immediate_notification_task store postId mailerOk = .ok (sends, store2) →
        (store2.posts.find? (fun q => q.pk == some postId)).map
            Post.notifications_sent = some true
        ∧ send_immediate_notification_task store2 postId mailerOk = .ok ([], store2)) := by
  constructor
  · intro hflag
    simp [send_immediate_notification_task, hfind, hty,
      Post.send_notifications_to_subscribers, hflag]
  · intro sends store2 htask
    by_cases hflag : p.notifications_sent = true
    · have heq : send_immediate_notification_task store postId mailerOk = .ok ([], store) := by
        simp [send_immediate_notification_task, hfind, hty,
          Post.send_notifications_to_subscribers, hflag]
      rw [heq] at htask
      injection htask with htask2
      injection htask2 with hs hst
      subst hst
      constructor
      · rw [hfind]
        simp [hflag]
      · simp [send_immediate_notification_task, hfind, hty,
          Post.send_notifications_to_subscribers, hflag]
    · rw [Bool.not_eq_true] at hflag
      have hsn : Post.send_notifications_to_subscribers store p mailerOk =
          (p.categoryIds.flatMap (fun cid =>
            (store.subscribersOf cid).map (fun u =>
              Post.send_single_notification mailerOk u.id cid)),
           { store with
              posts := store.posts.map (fun q =>
                if q.pk == p.pk then { p with notifications_sent := true } else q) }) := by
        simp [Post.send_notifications_to_subscribers, hflag]
      have heq : send_immediate_notification_task store postId mailerOk =
          .ok (Post.send_notifications_to_subscribers store p mailerOk) := by
        simp [send_immediate_notification_task, hfind, hty]
      rw [heq, hsn] at htask
      injection htask with htask2
      injection htask2 with hs hst
      subst hst
      have hrepl := find_after_replace store.posts p
        { p with notifications_sent := true } postId hfind rfl
      constructor
      · show ((store.posts.map (fun q =>
            if q.pk == p.pk then { p with notifications_sent := true } else q)).find?
              (fun q => q.pk == some postId)).map Post.notifications_sent = some true
        rw [hrepl]
        rfl
      · exact task_found_flag_true _ postId { p with notifications_sent := true }
          mailerOk hrepl hty rfl

end NewsPortal

namespace NewsPortal

/-- Counterexample to C2 as stated over every post: in `exArticleStore` the
ARTICLE post 1 already has `notifications_sent = true`, yet the dispatch
task still emits a send attempt to subscriber 2 (the ARTICLE path of
`send_immediate_notification_task` never consults the flag), and it never
persists the flag-setting store update (the store is returned unchanged), so
a second invocation sends again. -/
theorem C2_counterexample_article_resends :
    (exArticleStore.posts.find? (fun q => q.pk == some 1)).map
        Post.notifications_sent = some true
    ∧ send_immediate_notification_task exArticleStore 1 (fun _ => true) =
        .ok ([⟨2, 1, true⟩], exArticleStore) := by
  constructor
  · rfl
  · rfl

/-- Witness for the amended C2 at a concrete NEWS store: the first dispatch
marks post 1 as sent, and re-invoking on the resulting store sends
nothing. -/
theorem C2_news_dispatch_flag_idempotent_witness :
    exNewsStore.posts.find? (fun q => q.pk == some 1) = some exNewsRow
    ∧ exNewsRow.post_type = PostType.news
    ∧ ((exNewsStoreSent.posts.find? (fun q => q.pk == some 1)).map
          Post.notifications_sent = some true
        ∧ send_immediate_notification_task exNewsStoreSent 1 (fun _ => true) =
            .ok ([], exNewsStoreSent)) := by
  refine ⟨by decide, by decide, ?_⟩
  exact (C2_news_dispatch_flag_idempotent exNewsStore 1 exNewsRow (fun _ => true)
    (by decide) (by decide)).2 [⟨2, 1, true⟩] exNewsStoreSent (by rfl)

/-- Claim C3: per subscription in a weekly-digest run at time `now` —
a subscription whose cursor is at most 7 days old is skipped with counters
and cursor untouched; a due subscription whose category has no qualifying
ARTICLE in the trailing 7 days is skipped likewise; and a digest send is
attempted only when the subscription is due and a qualifying ARTICLE
exists, in which case a successful send sets the cursor to the dispatch
time `now`. -/
theorem C3_weekly_digest_cursor_policy (posts : List Post) (now : Nat)
    (mailerOk : Nat → Bool) (s : Subscription) :
    (∀ t, s.last_weekly_sent = some t → now - t ≤ 7 * daySeconds →
      process_subscription posts now mailerOk s = ⟨s, 0, 0, none⟩)
    ∧ (s.needs_weekly_digest now = true →
      weekly_new_posts posts s.categoryId (now - 7 * daySeconds) = [] →
      process_subscription posts now mailerOk s = ⟨s, 0, 0, none⟩)
    ∧ (∀ r, process_subscription posts now mailerOk s = r → r.attempt.isSome →
      s.needs_weekly_digest now = true
      ∧ weekly_new_posts posts s.categoryId (now - 7 * daySeconds) ≠ []
      ∧ (r.attempt = some true → r.sub.last_weekly_sent = some now)) := by
  refine ⟨?_, ?_, ?_⟩
  · intro t ht hle
    have hneed : s.needs_weekly_digest now = false := by
      simp [Subscription.needs_weekly_digest, ht]
      omega
    simp [process_subscription, hneed]
  · intro hneed hempty
    simp [process_subscription, hneed, hempty]
  · intro r hr hsome
    by_cases hneed : s.needs_weekly_digest now = true
    · by_cases hempty :
        weekly_new_posts posts s.categoryId (now - 7 * daySeconds) = []
      · rw [← hr] at hsome
        simp [process_subscription, hneed, hempty] at hsome
      · refine ⟨hneed, hempty, ?_⟩
        intro htrue
        by_cases hmail : mailerOk s.userId = true
        · have : r = ⟨{ s with last_weekly_sent := some now }, 1, 0, some true⟩ := by
            rw [← hr]
            simp [process_subscription, hneed, hmail,
              List.isEmpty_iff, hempty]
          rw [this]
        · rw [Bool.not_eq_true] at hmail
          have : r = ⟨s, 0, 1, some false⟩ := by
            rw [← hr]
            simp [process_subscription, hneed, hmail,
              List.isEmpty_iff, hempty]
          rw [this] at htrue
          simp at htrue
    · rw [Bool.not_eq_true] at hneed
      rw [← hr] at hsome
      simp [process_subscription, hneed] at hsome

/-- Witness for C3 at a concrete subscription: the cursor was advanced 50
seconds before `now = 100`, so the run skips it untouched. -/
theorem C3_weekly_digest_cursor_policy_witness :
    (⟨5, 2, 1, some 50⟩ : Subscription).last_weekly_sent = some 50
    ∧ (100 : Nat) - 50 ≤ 7 * daySeconds
    ∧ process_subscription exDigestStore.posts 100 (fun _ => true)
        ⟨5, 2, 1, some 50⟩ = ⟨⟨5, 2, 1, some 50⟩, 0, 0, none⟩ := by
  refine ⟨by decide, by decide, ?_⟩
  exact (C3_weekly_digest_cursor_policy exDigestStore.posts 100 (fun _ => true)
    ⟨5, 2, 1, some 50⟩).1 50 (by decide) (by decide)

end NewsPortal

namespace NewsPortal

/-- The counter increments of one digest-loop iteration are determined by
its send attempt: `sentInc` counts a delivered digest, `errInc` a mailer
failure. -/
theorem process_subscription_incs (posts : List Post) (now : Nat)
    (mailerOk : Nat → Bool) (s : Subscription) :
    (process_subscription posts now mailerOk s).sentInc =
      (if (process_subscription posts now mailerOk s).attempt == some true
        then 1 else 0)
    ∧ (process_subscription posts now mailerOk s).errInc =
      (if (process_subscription posts now mailerOk s).attempt == some false
        then 1 else 0) := by
  by_cases h1 : s.needs_weekly_digest now = true
  · by_cases h2 : weekly_new_posts posts s.categoryId (now - 7 * daySeconds) = []
    · simp [process_subscription, h1, h2]
    · by_cases h3 : mailerOk s.userId = true
      · simp [process_subscription, h1, h2, h3, List.isEmpty_iff]
      · simp [process_subscription, h1, h2, h3, List.isEmpty_iff]
  · simp [process_subscription, h1]

/-- Closed form of the `send_weekly_digest` fold: the final subscription
rows are the per-subscription updates in order, and the counters count the
delivered and the failed digest attempts. -/
theorem foldl_digest_step (posts : List Post) (now : Nat) (mailerOk : Nat → Bool)
    (l : List Subscription) :
    ∀ acc : List Subscription × Nat × Nat,
      l.foldl (digest_step posts now mailerOk) acc =
        (acc.1 ++ l.map (fun s => (process_subscription posts now mailerOk s).sub),
         acc.2.1 + l.countP (fun s =>
            (process_subscription posts now mailerOk s).attempt == some true),
         acc.2.2 + l.countP (fun s =>
            (process_subscription posts now mailerOk s).attempt == some false)) := by
  induction l with
  | nil => intro acc; simp
  | cons a l ih =>
    intro acc
    rw [List.foldl_cons, ih]
    have h1 := (process_subscription_incs posts now mailerOk a).1
    have h2 := (process_subscription_incs posts now mailerOk a).2
    simp only [digest_step, List.map_cons, List.countP_cons, h1, h2]
    refine Prod.ext ?_ (Prod.ext ?_ ?_)
    · simp
    · simp only []
      omega
    · simp only []
      omega

/-- Claim C10: in a weekly-digest run, a mailer failure for one subscription
leaves that subscription's cursor unchanged and counts one error (the cursor
is written only after a successful send), the run is not stopped — every
subscription's row is still processed in order — and the run returns the
counts `{sent, errors, total = sent + errors}` counting successful and
failed digest attempts. -/
theorem C10_digest_run_failure_isolation (store : Store) (now : Nat)
    (mailerOk : Nat → Bool) :
    (send_weekly_digest store now mailerOk).2.subscriptions =
        store.subscriptions.map (fun s =>
          (process_subscription store.posts now mailerOk s).sub)
    ∧ (send_weekly_digest store now mailerOk).1.sent =
        store.subscriptions.countP (fun s =>
          (process_subscription store.posts now mailerOk s).attempt == some true)
    ∧ (send_weekly_digest store now mailerOk).1.errors =
        store.subscriptions.countP (fun s =>
          (process_subscription store.posts now mailerOk s).attempt == some false)
    ∧ (send_weekly_digest store now mailerOk).1.total =
        (send_weekly_digest store now mailerOk).1.sent +
          (send_weekly_digest store now mailerOk).1.errors
    ∧ (∀ s, (process_subscription store.posts now mailerOk s).attempt = some false →
        (process_subscription store.posts now mailerOk s).sub = s
        ∧ (process_subscription store.posts now mailerOk s).errInc = 1) := by
  have hfold := foldl_digest_step store.posts now mailerOk store.subscriptions ([], 0, 0)
  have hrun : send_weekly_digest store now mailerOk =
      (⟨store.subscriptions.countP (fun s =>
          (process_subscription store.posts now mailerOk s).attempt == some true),
        store.subscriptions.countP (fun s =>
          (process_subscription store.posts now mailerOk s).attempt == some false),
        store.subscriptions.countP (fun s =>
            (process_subscription store.posts now mailerOk s).attempt == some true)
          + store.subscriptions.countP (fun s =>
            (process_subscription store.posts now mailerOk s).attempt == some false)⟩,
       { store with subscriptions := store.subscriptions.map (fun s =>
          (process_subscription store.posts now mailerOk s).sub) }) := by
    simp only [send_weekly_digest]
    rw [hfold]
    simp
  refine ⟨?_, ?_, ?_, ?_, ?_⟩
  · rw [hrun]
  · rw [hrun]
  · rw [hrun]
  · rw [hrun]
  · intro s hatt
    by_cases h1 : s.needs_weekly_digest now = true
    · by_cases h2 : weekly_new_posts store.posts s.categoryId (now - 7 * daySeconds) = []
      · simp [process_subscription, h1, h2] at hatt
      · by_cases h3 : mailerOk s.userId = true
        · simp [process_subscription, h1, h2, h3, List.isEmpty_iff] at hatt
        · simp [process_subscription, h1, h2, h3, List.isEmpty_iff]
    · simp [process_subscription, h1] at hatt

/-- Witness for C10: in `exDigestStore` with a failing mailer, the due
subscription's digest attempt fails; its cursor stays `none` and one error
is counted. -/
theorem C10_digest_run_failure_isolation_witness :
    (process_subscription exDigestStore.posts 100 (fun _ => false)
        exDigestSub).attempt = some false
    ∧ ((process_subscription exDigestStore.posts 100 (fun _ => false)
          exDigestSub).sub = exDigestSub
        ∧ (process_subscription exDigestStore.posts 100 (fun _ => false)
            exDigestSub).errInc = 1) := by
  refine ⟨by decide, ?_⟩
  exact (C10_digest_run_failure_isolation exDigestStore 100 (fun _ => false)).2.2.2.2
    exDigestSub (by decide)

end NewsPortal

namespace NewsPortal

/-- Counterexample to C5: with a failing mailer, the dispatch handler for
NEWS post 1 still returns success — recording the failed attempt, and even
persisting `notifications_sent = true` — and the weekly-digest run for the
due subscription returns the counters `{sent 0, errors 1, total 1}` with the
store unchanged; neither handler propagates the transport failure. -/
theorem C5_counterexample_failure_not_propagated :
    send_immediate_notification_task exNewsStore 1 (fun _ => false) =
      .ok ([⟨2, 1, false⟩], exNewsStoreSent)
    ∧ send_weekly_digest exDigestStore 100 (fun _ => false) =
        (⟨0, 1, 1⟩, exDigestStore) := by
  constructor
  · rfl
  · rfl

/-- Claim C5 (amended): mailer transport failures are caught inside the
handlers rather than propagated — the dispatch task fails only when the
post id does not resolve (independently of the mailer), a failed send does
not shorten the fan-out iteration (the attempted recipients are the same as
with an always-succeeding mailer), and in the weekly digest a failed send is
converted into one counted error with the subscription's cursor left
unchanged. -/
theorem C5_mailer_failures_swallowed (store : Store) (postId now : Nat)
    (mailerOk : Nat → Bool) :
    (send_immediate_notification_task store postId mailerOk = .error () ↔
      store.posts.find? (fun q => q.pk == some postId) = none)
    ∧ (∀ p, (Post.send_notifications_to_subscribers store p mailerOk).1.map
          (fun a => (a.toUserId, a.catId)) =
        (Post.send_notifications_to_subscribers store p (fun _ => true)).1.map
          (fun a => (a.toUserId, a.catId)))
    ∧ (∀ s : Subscription,
        (process_subscription store.posts now mailerOk s).attempt = some false →
        process_subscription store.posts now mailerOk s = ⟨s, 0, 1, some false⟩) := by
  refine ⟨?_, ?_, ?_⟩
  · cases hfind : store.posts.find? (fun q => q.pk == some postId) with
    | none => simp [send_immediate_notification_task, hfind]
    | some p =>
      by_cases hty : p.post_type = PostType.news
      · simp [send_immediate_notification_task, hfind, hty]
      · simp [send_immediate_notification_task, hfind, hty]
  · intro p
    by_cases hf : p.notifications_sent = true
    · simp [Post.send_notifications_to_subscribers, hf]
    · simp [Post.send_notifications_to_subscribers, hf,
        Post.send_single_notification, List.map_flatMap, List.map_map,
        Function.comp_def]
  · intro s hatt
    by_cases h1 : s.needs_weekly_digest now = true
    · by_cases h2 : weekly_new_posts store.posts s.categoryId (now - 7 * daySeconds) = []
      · simp [process_subscription, h1, h2] at hatt
      · by_cases h3 : mailerOk s.userId = true
        · simp [process_subscription, h1, h2, h3, List.isEmpty_iff] at hatt
        · simp [process_subscription, h1, h2, h3, List.isEmpty_iff]
    · simp [process_subscription, h1] at hatt

/-- Witness for the amended C5: the concrete failed digest attempt of
`exDigestSub` is turned into one counted error, cursor untouched. -/
theorem C5_mailer_failures_swallowed_witness :
    (process_subscription exDigestStore.posts 100 (fun _ => false)
        exDigestSub).attempt = some false
    ∧ process_subscription exDigestStore.posts 100 (fun _ => false) exDigestSub =
        ⟨exDigestSub, 0, 1, some false⟩ := by
  refine ⟨by decide, ?_⟩
  exact (C5_mailer_failures_swallowed exDigestStore 1 100 (fun _ => false)).2.2
    exDigestSub (by decide)

/-- Claim C4 fails on the code: creating a post fires
`notify_subscribers_on_new_post` (`signals.py:293-300`), which submits the
notification job with `task.delay` directly inside the `post_save` signal —
before the surrounding transaction's commit point — unlike the
`transaction.on_commit` submissions of `handle_post_save` and
`handle_post_categories_changed`; the create trace therefore contains a
pre-commit submission (and a duplicate post-commit one), while the pure
category-attachment trace submits only after commit. -/
theorem C4_job_submitted_before_commit :
    create_post_events 1 true =
      [.submitJob 1, .commitTx, .submitJob 1]
    ∧ submits_only_after_commit (create_post_events 1 true) = false
    ∧ submits_only_after_commit (attach_categories_events 1) = true := by
  refine ⟨rfl, rfl, rfl⟩

end NewsPortal
